import Mathlib

/-!
Verification of the Red Rocks scenic-loop route analysis.

This file gives a shallow embedding, over the real numbers, of the geometric
core of `analyze_scenic_loop_path.py` (haversine distance, segment projection,
path projection, route ordering) and, over rationals and character lists, of
the rating/score functions of `create_area_summary_scenic.py`.  Floating-point
arithmetic of the source is idealised as exact real arithmetic; Python's
`math.atan2`, `math.radians`, `math.sqrt` are modelled by their mathematical
counterparts (Lean's `Real.sqrt` is total, returning 0 on negative input,
which matches the source wherever the argument is provably nonnegative).
-/

namespace RedRocks

open Real

/-- Model of Python `math.radians`: degrees to radians. -/
noncomputable def radians (x : ℝ) : ℝ := x * Real.pi / 180

/-- Model of Python `math.atan2 y x` (two-argument arctangent).
For reals there is no negative zero, so `atan2 0 x = 0` for `x = 0` and `π` for `x < 0`. -/
noncomputable def atan2 (y x : ℝ) : ℝ :=
  if 0 < x then Real.arctan (y / x)
  else if x < 0 then
    (if 0 ≤ y then Real.arctan (y / x) + Real.pi else Real.arctan (y / x) - Real.pi)
  else
    (if 0 < y then Real.pi / 2 else if y < 0 then -(Real.pi / 2) else 0)

/-- `calculate_distance(lat1, lon1, lat2, lon2)` from `analyze_scenic_loop_path.py`:
haversine distance in miles with Earth radius 3959. -/
noncomputable def calculate_distance (lat1 lon1 lat2 lon2 : ℝ) : ℝ :=
  let R : ℝ := 3959
  let lat1_rad := radians lat1
  let lat2_rad := radians lat2
  let delta_lat := radians (lat2 - lat1)
  let delta_lon := radians (lon2 - lon1)
  let a := Real.sin (delta_lat / 2) ^ 2 +
    Real.cos lat1_rad * Real.cos lat2_rad * Real.sin (delta_lon / 2) ^ 2
  let c := 2 * atan2 (Real.sqrt a) (Real.sqrt (1 - a))
  R * c

/-- `distance_to_line_segment(px, py, x1, y1, x2, y2)` from
`analyze_scenic_loop_path.py`: distance from a point to a lat/lon line segment
treated as a flat 2-D segment, together with the clamped position `t ∈ [0,1]`
of the closest point along the segment. -/
noncomputable def distance_to_line_segment (px py x1 y1 x2 y2 : ℝ) : ℝ × ℝ :=
  let dx := x2 - x1
  let dy := y2 - y1
  if dx = 0 ∧ dy = 0 then
    (calculate_distance px py x1 y1, 0)
  else
    let t0 := ((px - x1) * dx + (py - y1) * dy) / (dx * dx + dy * dy)
    let t := max 0 (min 1 t0)
    let closest_x := x1 + t * dx
    let closest_y := y1 + t * dy
    (calculate_distance px py closest_x closest_y, t)

lemma atan2_nonneg {y : ℝ} (x : ℝ) (hy : 0 ≤ y) : 0 ≤ atan2 y x := by
  have hpi := Real.pi_pos
  unfold atan2
  rcases lt_trichotomy x 0 with hx | rfl | hx
  · rw [if_neg (by linarith), if_pos hx, if_pos hy]
    have := Real.neg_pi_div_two_lt_arctan (y / x)
    linarith
  · rw [if_neg (lt_irrefl 0), if_neg (lt_irrefl 0)]
    rcases eq_or_lt_of_le hy with rfl | hy'
    · rw [if_neg (lt_irrefl 0), if_neg (lt_irrefl 0)]
    · rw [if_pos hy']
      positivity
  · rw [if_pos hx, ← Real.arctan_zero]
    exact Real.arctan_strictMono.monotone (div_nonneg hy hx.le)

lemma atan2_pos {y x : ℝ} (hy : 0 < y) (hx : 0 ≤ x) : 0 < atan2 y x := by
  have hpi := Real.pi_pos
  unfold atan2
  rcases eq_or_lt_of_le hx with rfl | hx'
  · rw [if_neg (lt_irrefl 0), if_neg (lt_irrefl 0), if_pos hy]
    positivity
  · rw [if_pos hx', ← Real.arctan_zero]
    exact Real.arctan_strictMono (by positivity)

lemma calculate_distance_nonneg (lat1 lon1 lat2 lon2 : ℝ) :
    0 ≤ calculate_distance lat1 lon1 lat2 lon2 := by
  unfold calculate_distance
  have h := atan2_nonneg (y := Real.sqrt (1 -
      (Real.sin (radians (lat2 - lat1) / 2) ^ 2 +
        Real.cos (radians lat1) * Real.cos (radians lat2) *
          Real.sin (radians (lon2 - lon1) / 2) ^ 2)))
  simp only
  have := atan2_nonneg (y := Real.sqrt
      (Real.sin (radians (lat2 - lat1) / 2) ^ 2 +
        Real.cos (radians lat1) * Real.cos (radians lat2) *
          Real.sin (radians (lon2 - lon1) / 2) ^ 2))
      (Real.sqrt (1 - (Real.sin (radians (lat2 - lat1) / 2) ^ 2 +
        Real.cos (radians lat1) * Real.cos (radians lat2) *
          Real.sin (radians (lon2 - lon1) / 2) ^ 2)))
      (Real.sqrt_nonneg _)
  nlinarith

lemma calculate_distance_self (lat lon : ℝ) : calculate_distance lat lon lat lon = 0 := by
  unfold calculate_distance radians
  simp [atan2]

lemma cos_radians_pos {x : ℝ} (h1 : -90 < x) (h2 : x < 90) : 0 < Real.cos (radians x) := by
  have hpi := Real.pi_pos
  apply Real.cos_pos_of_mem_Ioo
  constructor
  · unfold radians
    nlinarith
  · unfold radians
    nlinarith

lemma sin_radians_half_eq_zero_iff {x : ℝ} (h1 : -360 < x) (h2 : x < 360) :
    Real.sin (radians x / 2) = 0 ↔ x = 0 := by
  have hpi := Real.pi_pos
  have hlo : -Real.pi < radians x / 2 := by unfold radians; nlinarith
  have hhi : radians x / 2 < Real.pi := by unfold radians; nlinarith
  rw [Real.sin_eq_zero_iff_of_lt_of_lt hlo hhi]
  unfold radians
  constructor
  · intro h
    have : x * Real.pi = 0 := by linarith
    rcases mul_eq_zero.mp this with h' | h'
    · exact h'
    · exact absurd h' (ne_of_gt hpi)
  · intro h
    rw [h]
    ring

lemma calculate_distance_pos {lat1 lon1 lat2 lon2 : ℝ}
    (ha1 : -90 < lat1) (ha2 : lat1 < 90) (hb1 : -90 < lat2) (hb2 : lat2 < 90)
    (hl1 : -360 < lon2 - lon1) (hl2 : lon2 - lon1 < 360)
    (hne : lat1 ≠ lat2 ∨ lon1 ≠ lon2) :
    0 < calculate_distance lat1 lon1 lat2 lon2 := by
  have hc1 := cos_radians_pos ha1 ha2
  have hc2 := cos_radians_pos hb1 hb2
  have hapos : 0 < Real.sin (radians (lat2 - lat1) / 2) ^ 2 +
      Real.cos (radians lat1) * Real.cos (radians lat2) *
        Real.sin (radians (lon2 - lon1) / 2) ^ 2 := by
    rcases hne with hne | hne
    · have hdl1 : -360 < lat2 - lat1 := by linarith
      have hdl2 : lat2 - lat1 < 360 := by linarith
      have hs : Real.sin (radians (lat2 - lat1) / 2) ≠ 0 := by
        rw [ne_eq, sin_radians_half_eq_zero_iff hdl1 hdl2]
        intro h
        exact hne (by linarith)
      have h1 : 0 < Real.sin (radians (lat2 - lat1) / 2) ^ 2 := by positivity
      nlinarith [mul_nonneg (mul_pos hc1 hc2).le
        (sq_nonneg (Real.sin (radians (lon2 - lon1) / 2)))]
    · have hs : Real.sin (radians (lon2 - lon1) / 2) ≠ 0 := by
        rw [ne_eq, sin_radians_half_eq_zero_iff hl1 hl2]
        intro h
        exact hne (by linarith)
      have h2 : 0 < Real.sin (radians (lon2 - lon1) / 2) ^ 2 := by positivity
      nlinarith [mul_pos (mul_pos hc1 hc2) h2,
        sq_nonneg (Real.sin (radians (lat2 - lat1) / 2))]
  have hat : 0 < atan2 (Real.sqrt (Real.sin (radians (lat2 - lat1) / 2) ^ 2 +
      Real.cos (radians lat1) * Real.cos (radians lat2) *
        Real.sin (radians (lon2 - lon1) / 2) ^ 2))
      (Real.sqrt (1 - (Real.sin (radians (lat2 - lat1) / 2) ^ 2 +
      Real.cos (radians lat1) * Real.cos (radians lat2) *
        Real.sin (radians (lon2 - lon1) / 2) ^ 2))) :=
    atan2_pos (Real.sqrt_pos.mpr hapos) (Real.sqrt_nonneg _)
  unfold calculate_distance
  simp only
  nlinarith

lemma calculate_distance_symm (lat1 lon1 lat2 lon2 : ℝ) :
    calculate_distance lat1 lon1 lat2 lon2 = calculate_distance lat2 lon2 lat1 lon1 := by
  have key : ∀ u v : ℝ, Real.sin (radians (u - v) / 2) ^ 2 =
      Real.sin (radians (v - u) / 2) ^ 2 := by
    intro u v
    rw [show radians (u - v) = -radians (v - u) by unfold radians; ring, neg_div,
      Real.sin_neg]
    ring
  unfold calculate_distance
  simp only
  rw [key lat2 lat1, key lon2 lon1, mul_comm (Real.cos (radians lat1)) (Real.cos (radians lat2))]

lemma calculate_distance_eq_zero_iff {lat1 lon1 lat2 lon2 : ℝ}
    (ha1 : -90 < lat1) (ha2 : lat1 < 90) (hb1 : -90 < lat2) (hb2 : lat2 < 90)
    (hl1 : -360 < lon2 - lon1) (hl2 : lon2 - lon1 < 360) :
    calculate_distance lat1 lon1 lat2 lon2 = 0 ↔ lat1 = lat2 ∧ lon1 = lon2 := by
  constructor
  · intro h
    by_contra hne
    rw [not_and_or] at hne
    exact absurd h
      (ne_of_gt (calculate_distance_pos ha1 ha2 hb1 hb2 hl1 hl2 hne))
  · rintro ⟨rfl, rfl⟩
    exact calculate_distance_self lat1 lon1

/-- C9 (amended): the great-circle distance is nonnegative, symmetric, and zero
when the two coordinates are identical; the converse of the last part holds for
latitudes strictly inside (-90, 90) and longitudes differing by less than 360
degrees (outside those ranges distinct coordinates can have distance zero). -/
theorem calculate_distance_props (lat1 lon1 lat2 lon2 : ℝ) :
    0 ≤ calculate_distance lat1 lon1 lat2 lon2 ∧
    calculate_distance lat1 lon1 lat2 lon2 = calculate_distance lat2 lon2 lat1 lon1 ∧
    (lat1 = lat2 → lon1 = lon2 → calculate_distance lat1 lon1 lat2 lon2 = 0) ∧
    (-90 < lat1 → lat1 < 90 → -90 < lat2 → lat2 < 90 →
      -360 < lon2 - lon1 → lon2 - lon1 < 360 →
      (calculate_distance lat1 lon1 lat2 lon2 = 0 ↔ lat1 = lat2 ∧ lon1 = lon2)) := by
  refine ⟨calculate_distance_nonneg lat1 lon1 lat2 lon2,
    calculate_distance_symm lat1 lon1 lat2 lon2, ?_, ?_⟩
  · rintro rfl rfl
    exact calculate_distance_self lat1 lon1
  · intro ha1 ha2 hb1 hb2 hl1 hl2
    exact calculate_distance_eq_zero_iff ha1 ha2 hb1 hb2 hl1 hl2

/-- Witness for C9 at concrete inputs. -/
theorem calculate_distance_props_witness :
    calculate_distance 36 (-115) 36 (-115) = 0 ∧
      0 ≤ calculate_distance 36.1 (-115.4) 36.2 (-115.5) := by
  constructor
  · exact ((calculate_distance_props 36 (-115) 36 (-115)).2.2.2 (by norm_num) (by norm_num)
      (by norm_num) (by norm_num) (by norm_num) (by norm_num)).mpr ⟨rfl, rfl⟩
  · exact (calculate_distance_props 36.1 (-115.4) 36.2 (-115.5)).1

/-- C9 counterexample: at the pole, two coordinate pairs with different
longitudes are at distance zero, so "zero iff identical" fails as stated. -/
theorem calculate_distance_zero_not_identical :
    calculate_distance 90 0 90 180 = 0 ∧ ¬((90 : ℝ) = 90 ∧ (0 : ℝ) = 180) := by
  constructor
  · unfold calculate_distance radians
    rw [show ((90 : ℝ) - 90) * Real.pi / 180 = 0 by ring,
      show (90 : ℝ) * Real.pi / 180 = Real.pi / 2 by ring]
    simp [Real.cos_pi_div_two, atan2]
  · intro h
    have := h.2
    norm_num at this

/-- C6: calling the segment projector with identical start and end points returns
`t = 0` and the distance to the start point (the zero-length branch; no division
is performed). -/
theorem distance_to_line_segment_degenerate (px py x1 y1 x2 y2 : ℝ)
    (hx : x2 = x1) (hy : y2 = y1) :
    distance_to_line_segment px py x1 y1 x2 y2 = (calculate_distance px py x1 y1, 0) := by
  subst hx; subst hy
  unfold distance_to_line_segment
  simp

/-- Witness for C6 at a concrete input. -/
theorem distance_to_line_segment_degenerate_witness :
    distance_to_line_segment 36.15 (-115.43) 36.12 (-115.47) 36.12 (-115.47) =
      (calculate_distance 36.15 (-115.43) 36.12 (-115.47), 0) :=
  distance_to_line_segment_degenerate 36.15 (-115.43) 36.12 (-115.47) 36.12 (-115.47) rfl rfl

/-- A waypoint of the scenic loop: latitude, longitude and a label. -/
abbrev Waypoint : Type := ℝ × ℝ × String

/-- A path segment: a pair of consecutive waypoints. -/
abbrev Seg : Type := Waypoint × Waypoint

/-- The hard-coded `SCENIC_LOOP_WAYPOINTS` table of `analyze_scenic_loop_path.py`. -/
noncomputable def SCENIC_LOOP_WAYPOINTS : List Waypoint :=
  [(36.1588, -115.4264, "Visitor Center / Entrance"),
   (36.1450, -115.4450, "Early Drive Section"),
   (36.1300, -115.4600, "Calico Hills Approach"),
   (36.1480, -115.4280, "Calico Basin / First Pullout"),
   (36.1200, -115.4700, "Central Canyon Area"),
   (36.1000, -115.4800, "Southern Canyon Area"),
   (36.1100, -115.5000, "Pine Creek Canyon"),
   (36.1150, -115.4900, "Juniper Canyon"),
   (36.1250, -115.4850, "Icebox Canyon Area"),
   (36.1350, -115.4800, "Willow Spring Area"),
   (36.1500, -115.4650, "Late Drive Section"),
   (36.1588, -115.4264, "Return to Visitor Center")]

noncomputable def dummySeg : Seg := ((0, 0, ""), (0, 0, ""))

/-- Distance and local position of `(lat, lon)` relative to one path segment
(the call to `distance_to_line_segment` inside the loop of
`find_closest_waypoint_on_path`). -/
noncomputable def segmentDistT (lat lon : ℝ) (seg : Seg) : ℝ × ℝ :=
  distance_to_line_segment lat lon seg.1.1 seg.1.2.1 seg.2.1 seg.2.2.1

/-- The minimum-tracking loop of `find_closest_waypoint_on_path`: iterate over
the segments (index `i` counting up), keeping the best
`(min_distance, closest_segment, closest_position_on_segment)` so far and
replacing it only on strictly smaller distance.  The Python initial state
`min_distance = float('inf')` is modelled as `none` (the first segment always
replaces it, since every distance is finite). -/
noncomputable def bestFold (lat lon : ℝ) :
    List Seg → ℕ → Option (ℝ × ℕ × ℝ) → Option (ℝ × ℕ × ℝ)
  | [], _, st => st
  | seg :: rest, i, st =>
    bestFold lat lon rest (i + 1)
      (match st with
       | none => some ((segmentDistT lat lon seg).1, i, (segmentDistT lat lon seg).2)
       | some (m, s, t) =>
         if (segmentDistT lat lon seg).1 < m then
           some ((segmentDistT lat lon seg).1, i, (segmentDistT lat lon seg).2)
         else some (m, s, t))

/-- `find_closest_waypoint_on_path` generalised over the waypoint table (the
source reads the global `SCENIC_LOOP_WAYPOINTS`; the spec asks for the table as
a parameter).  Returns `(path_position, min_distance)`.  The `none` branch is
unreachable whenever the table has at least two waypoints. -/
noncomputable def find_closest_waypoint_on_path_aux (wps : List Waypoint) (lat lon : ℝ) :
    ℝ × ℝ :=
  match bestFold lat lon (wps.zip wps.tail) 0 none with
  | none => (0, 0)
  | some (m, s, t) => (((s : ℝ) + t) / ((wps.length : ℝ) - 1), m)

/-- `find_closest_waypoint_on_path(lat, lon)` from `analyze_scenic_loop_path.py`. -/
noncomputable def find_closest_waypoint_on_path (lat lon : ℝ) : ℝ × ℝ :=
  find_closest_waypoint_on_path_aux SCENIC_LOOP_WAYPOINTS lat lon

/-- Segment `j` of the path through `wps` (the pair `(wps[j], wps[j+1])`). -/
noncomputable def segAt (wps : List Waypoint) (j : ℕ) : Seg :=
  (wps.zip wps.tail).getD j dummySeg

/-- Distance from `(lat, lon)` to segment `j` of the path through `wps`. -/
noncomputable def segDist (wps : List Waypoint) (lat lon : ℝ) (j : ℕ) : ℝ :=
  (segmentDistT lat lon (segAt wps j)).1

/-- Local position of the projection of `(lat, lon)` onto segment `j`. -/
noncomputable def segT (wps : List Waypoint) (lat lon : ℝ) (j : ℕ) : ℝ :=
  (segmentDistT lat lon (segAt wps j)).2

lemma distance_to_line_segment_fst_nonneg (px py x1 y1 x2 y2 : ℝ) :
    0 ≤ (distance_to_line_segment px py x1 y1 x2 y2).1 := by
  unfold distance_to_line_segment
  simp only
  split_ifs <;> exact calculate_distance_nonneg _ _ _ _

lemma distance_to_line_segment_snd_nonneg (px py x1 y1 x2 y2 : ℝ) :
    0 ≤ (distance_to_line_segment px py x1 y1 x2 y2).2 := by
  unfold distance_to_line_segment
  simp only
  split_ifs
  · exact le_refl 0
  · exact le_max_left 0 _

lemma distance_to_line_segment_snd_le_one (px py x1 y1 x2 y2 : ℝ) :
    (distance_to_line_segment px py x1 y1 x2 y2).2 ≤ 1 := by
  unfold distance_to_line_segment
  simp only
  split_ifs
  · exact zero_le_one
  · exact max_le zero_le_one (min_le_left 1 _)

lemma segmentDistT_fst_nonneg (lat lon : ℝ) (seg : Seg) :
    0 ≤ (segmentDistT lat lon seg).1 :=
  distance_to_line_segment_fst_nonneg lat lon seg.1.1 seg.1.2.1 seg.2.1 seg.2.2.1

lemma bestFold_zero (lat lon : ℝ) :
    ∀ (L : List Seg) (b s : ℕ) (t : ℝ),
      bestFold lat lon L b (some (0, s, t)) = some (0, s, t) := by
  intro L
  induction L with
  | nil => intro b s t; rfl
  | cons seg rest ih =>
    intro b s t
    simp only [bestFold]
    rw [if_neg (not_lt.mpr (segmentDistT_fst_nonneg lat lon seg))]
    exact ih (b + 1) s t

lemma bestFold_min_aux (lat lon : ℝ) :
    ∀ (L : List Seg) (b : ℕ) (m : ℝ) (s : ℕ) (t : ℝ),
      ∃ r : ℝ × ℕ × ℝ, bestFold lat lon L b (some (m, s, t)) = some r ∧
        ((r = (m, s, t) ∧
            ∀ j, j < L.length → m ≤ (segmentDistT lat lon (L.getD j dummySeg)).1) ∨
         (∃ k, k < L.length ∧
            r = ((segmentDistT lat lon (L.getD k dummySeg)).1, b + k,
                 (segmentDistT lat lon (L.getD k dummySeg)).2) ∧
            (segmentDistT lat lon (L.getD k dummySeg)).1 < m ∧
            (∀ j, j < k → (segmentDistT lat lon (L.getD k dummySeg)).1 <
               (segmentDistT lat lon (L.getD j dummySeg)).1) ∧
            (∀ j, j < L.length → (segmentDistT lat lon (L.getD k dummySeg)).1 ≤
               (segmentDistT lat lon (L.getD j dummySeg)).1))) := by
  intro L
  induction L with
  | nil =>
    intro b m s t
    exact ⟨(m, s, t), rfl, Or.inl ⟨rfl, by simp⟩⟩
  | cons seg rest ih =>
    intro b m s t
    by_cases hlt : (segmentDistT lat lon seg).1 < m
    · obtain ⟨r, hr, hcase⟩ :=
        ih (b + 1) (segmentDistT lat lon seg).1 b (segmentDistT lat lon seg).2
      refine ⟨r, ?_, ?_⟩
      · simp only [bestFold]
        rw [if_pos hlt]
        exact hr
      · right
        rcases hcase with ⟨rfl, hall⟩ | ⟨k, hk, hrk, hklt, hstrict, hmin⟩
        · refine ⟨0, by simp, by simp, hlt, by omega, ?_⟩
          intro j hj
          cases j with
          | zero => simp
          | succ j' =>
            simp only [List.getD_cons_zero, List.getD_cons_succ]
            exact hall j' (by simpa using hj)
        · refine ⟨k + 1, by simpa using Nat.succ_lt_succ hk, ?_, ?_, ?_, ?_⟩
          · rw [hrk]
            simp only [List.getD_cons_succ]
            rw [show b + (k + 1) = (b + 1) + k by omega]
          · simp only [List.getD_cons_succ]
            exact lt_trans hklt hlt
          · intro j hj
            cases j with
            | zero => simpa using hklt
            | succ j' =>
              simp only [List.getD_cons_succ]
              exact hstrict j' (by omega)
          · intro j hj
            cases j with
            | zero => simpa using (le_of_lt hklt)
            | succ j' =>
              simp only [List.getD_cons_succ]
              exact hmin j' (by simpa using hj)
    · obtain ⟨r, hr, hcase⟩ := ih (b + 1) m s t
      refine ⟨r, ?_, ?_⟩
      · simp only [bestFold]
        rw [if_neg hlt]
        exact hr
      · rcases hcase with ⟨rfl, hall⟩ | ⟨k, hk, hrk, hklt, hstrict, hmin⟩
        · left
          refine ⟨rfl, ?_⟩
          intro j hj
          cases j with
          | zero => simpa using not_lt.mp hlt
          | succ j' =>
            simp only [List.getD_cons_succ]
            exact hall j' (by simpa using hj)
        · right
          refine ⟨k + 1, by simpa using Nat.succ_lt_succ hk, ?_, ?_, ?_, ?_⟩
          · rw [hrk]
            simp only [List.getD_cons_succ]
            rw [show b + (k + 1) = (b + 1) + k by omega]
          · simp only [List.getD_cons_succ]
            exact hklt
          · intro j hj
            cases j with
            | zero =>
              simp only [List.getD_cons_zero, List.getD_cons_succ]
              exact lt_of_lt_of_le hklt (not_lt.mp hlt)
            | succ j' =>
              simp only [List.getD_cons_succ]
              exact hstrict j' (by omega)
          · intro j hj
            cases j with
            | zero =>
              simp only [List.getD_cons_zero, List.getD_cons_succ]
              exact (lt_of_lt_of_le hklt (not_lt.mp hlt)).le
            | succ j' =>
              simp only [List.getD_cons_succ]
              exact hmin j' (by simpa using hj)

lemma bestFold_min (lat lon : ℝ) (L : List Seg) (hL : L ≠ []) :
    ∃ k, k < L.length ∧
      bestFold lat lon L 0 none =
        some ((segmentDistT lat lon (L.getD k dummySeg)).1, k,
              (segmentDistT lat lon (L.getD k dummySeg)).2) ∧
      (∀ j, j < L.length → (segmentDistT lat lon (L.getD k dummySeg)).1 ≤
        (segmentDistT lat lon (L.getD j dummySeg)).1) ∧
      (∀ j, j < k → (segmentDistT lat lon (L.getD k dummySeg)).1 <
        (segmentDistT lat lon (L.getD j dummySeg)).1) := by
  cases L with
  | nil => exact absurd rfl hL
  | cons seg rest =>
    obtain ⟨r, hr, hcase⟩ :=
      bestFold_min_aux lat lon rest 1 (segmentDistT lat lon seg).1 0 (segmentDistT lat lon seg).2
    rcases hcase with ⟨rfl, hall⟩ | ⟨k, hk, hrk, hklt, hstrict, hmin⟩
    · refine ⟨0, by simp, ?_, ?_, by omega⟩
      · simp only [bestFold, List.getD_cons_zero]
        exact hr
      · intro j hj
        cases j with
        | zero => simp
        | succ j' =>
          simp only [List.getD_cons_zero, List.getD_cons_succ]
          exact hall j' (by simpa using hj)
    · refine ⟨k + 1, by simpa using Nat.succ_lt_succ hk, ?_, ?_, ?_⟩
      · simp only [bestFold, List.getD_cons_succ]
        rw [hr, hrk]
        rw [show 1 + k = k + 1 by omega]
      · intro j hj
        cases j with
        | zero =>
          simp only [List.getD_cons_zero, List.getD_cons_succ]
          exact le_of_lt hklt
        | succ j' =>
          simp only [List.getD_cons_succ]
          exact hmin j' (by simpa using hj)
      · intro j hj
        cases j with
        | zero =>
          simp only [List.getD_cons_zero, List.getD_cons_succ]
          exact hklt
        | succ j' =>
          simp only [List.getD_cons_succ]
          exact hstrict j' (by omega)

lemma length_zip_tail (wps : List Waypoint) :
    (wps.zip wps.tail).length = wps.length - 1 := by
  rw [List.length_zip, List.length_tail]
  omega

/-- C5: for any waypoint table with at least two waypoints and any input
coordinate, the path projector returns a progress value in [0, 1]; the returned
pair comes from a segment achieving the minimum distance, and every earlier
segment has strictly larger distance (strict less-than update: on ties the
earliest segment wins). -/
theorem find_closest_waypoint_on_path_aux_spec (wps : List Waypoint) (lat lon : ℝ)
    (hw : 2 ≤ wps.length) :
    ∃ s, s < wps.length - 1 ∧
      find_closest_waypoint_on_path_aux wps lat lon =
        (((s : ℝ) + segT wps lat lon s) / ((wps.length : ℝ) - 1), segDist wps lat lon s) ∧
      0 ≤ (find_closest_waypoint_on_path_aux wps lat lon).1 ∧
      (find_closest_waypoint_on_path_aux wps lat lon).1 ≤ 1 ∧
      (∀ j, j < wps.length - 1 → segDist wps lat lon s ≤ segDist wps lat lon j) ∧
      (∀ j, j < s → segDist wps lat lon s < segDist wps lat lon j) := by
  have hlen : (wps.zip wps.tail).length = wps.length - 1 := length_zip_tail wps
  have hne : wps.zip wps.tail ≠ [] := by
    intro h
    rw [h] at hlen
    simp at hlen
    omega
  obtain ⟨k, hk, hfold, hmin, hstrict⟩ := bestFold_min lat lon (wps.zip wps.tail) hne
  have hk' : k < wps.length - 1 := hlen ▸ hk
  have hres : find_closest_waypoint_on_path_aux wps lat lon =
      (((k : ℝ) + segT wps lat lon k) / ((wps.length : ℝ) - 1), segDist wps lat lon k) := by
    unfold find_closest_waypoint_on_path_aux
    rw [hfold]
    rfl
  have ht0 : 0 ≤ segT wps lat lon k :=
    distance_to_line_segment_snd_nonneg lat lon _ _ _ _
  have ht1 : segT wps lat lon k ≤ 1 :=
    distance_to_line_segment_snd_le_one lat lon _ _ _ _
  have hlen2 : (2 : ℝ) ≤ (wps.length : ℝ) := by exact_mod_cast hw
  have hkr : (k : ℝ) + 2 ≤ (wps.length : ℝ) := by
    have : k + 2 ≤ wps.length := by omega
    exact_mod_cast this
  refine ⟨k, hk', hres, ?_, ?_, ?_, ?_⟩
  · rw [hres]
    have hden : (0 : ℝ) < (wps.length : ℝ) - 1 := by linarith
    have hnum : (0 : ℝ) ≤ (k : ℝ) + segT wps lat lon k := by positivity
    exact div_nonneg hnum hden.le
  · rw [hres]
    have hden : (0 : ℝ) < (wps.length : ℝ) - 1 := by linarith
    rw [div_le_one hden]
    linarith
  · intro j hj
    exact hmin j (by rw [hlen]; exact hj)
  · intro j hj
    exact hstrict j hj

/-- Witness for C5 at the concrete waypoint table and a concrete coordinate. -/
theorem find_closest_waypoint_on_path_aux_spec_witness :
    2 ≤ SCENIC_LOOP_WAYPOINTS.length ∧
    (∃ s, s < SCENIC_LOOP_WAYPOINTS.length - 1 ∧
      find_closest_waypoint_on_path_aux SCENIC_LOOP_WAYPOINTS 36.15 (-115.43) =
        (((s : ℝ) + segT SCENIC_LOOP_WAYPOINTS 36.15 (-115.43) s) /
            ((SCENIC_LOOP_WAYPOINTS.length : ℝ) - 1),
          segDist SCENIC_LOOP_WAYPOINTS 36.15 (-115.43) s) ∧
      0 ≤ (find_closest_waypoint_on_path_aux SCENIC_LOOP_WAYPOINTS 36.15 (-115.43)).1 ∧
      (find_closest_waypoint_on_path_aux SCENIC_LOOP_WAYPOINTS 36.15 (-115.43)).1 ≤ 1 ∧
      (∀ j, j < SCENIC_LOOP_WAYPOINTS.length - 1 →
        segDist SCENIC_LOOP_WAYPOINTS 36.15 (-115.43) s ≤
          segDist SCENIC_LOOP_WAYPOINTS 36.15 (-115.43) j) ∧
      (∀ j, j < s → segDist SCENIC_LOOP_WAYPOINTS 36.15 (-115.43) s <
          segDist SCENIC_LOOP_WAYPOINTS 36.15 (-115.43) j)) :=
  ⟨by decide,
   find_closest_waypoint_on_path_aux_spec SCENIC_LOOP_WAYPOINTS 36.15 (-115.43) (by decide)⟩

lemma convex_bounds {u v t lo hi : ℝ} (ht0 : 0 ≤ t) (ht1 : t ≤ 1)
    (hu1 : lo < u) (hu2 : u < hi) (hv1 : lo < v) (hv2 : v < hi) :
    lo < u + t * (v - u) ∧ u + t * (v - u) < hi := by
  rcases le_total u v with hc | hc
  · constructor
    · nlinarith [mul_nonneg ht0 (sub_nonneg.mpr hc)]
    · nlinarith [mul_nonneg (sub_nonneg.mpr ht1) (sub_nonneg.mpr hc)]
  · constructor
    · nlinarith [mul_nonneg (sub_nonneg.mpr ht1) (sub_nonneg.mpr hc)]
    · nlinarith [mul_nonneg ht0 (sub_nonneg.mpr hc)]

/-- If no point of the segment (including its clamped endpoints) coincides with
the query point, the segment distance is strictly positive. -/
lemma seg_dist_pos (px py x1 y1 x2 y2 : ℝ)
    (hb : -90 < px ∧ px < 90 ∧ -90 < x1 ∧ x1 < 90 ∧ -90 < x2 ∧ x2 < 90 ∧
      -360 < y1 - py ∧ y1 - py < 360 ∧ -360 < y2 - py ∧ y2 - py < 360)
    (hne : ∀ t : ℝ, 0 ≤ t → t ≤ 1 →
      x1 + t * (x2 - x1) ≠ px ∨ y1 + t * (y2 - y1) ≠ py) :
    0 < (distance_to_line_segment px py x1 y1 x2 y2).1 := by
  obtain ⟨hpa, hpb, h1a, h1b, h2a, h2b, hya, hyb, hza, hzb⟩ := hb
  unfold distance_to_line_segment
  simp only
  split_ifs with h
  · have h0 := hne 0 le_rfl zero_le_one
    simp only [zero_mul, add_zero] at h0
    refine calculate_distance_pos hpa hpb h1a h1b ?_ ?_ ?_
    · linarith
    · linarith
    · rcases h0 with h0 | h0
      · exact Or.inl (Ne.symm h0)
      · exact Or.inr (Ne.symm h0)
  · set t := max 0 (min 1 (((px - x1) * (x2 - x1) + (py - y1) * (y2 - y1)) /
      ((x2 - x1) * (x2 - x1) + (y2 - y1) * (y2 - y1)))) with htdef
    have ht0 : 0 ≤ t := le_max_left 0 _
    have ht1 : t ≤ 1 := max_le zero_le_one (min_le_left 1 _)
    have hx := convex_bounds ht0 ht1 h1a h1b h2a h2b
    have hy := convex_bounds ht0 ht1 hya hyb hza hzb
    have hyy : -360 < (y1 + t * (y2 - y1)) - py ∧ (y1 + t * (y2 - y1)) - py < 360 := by
      constructor
      · have := hy.1
        nlinarith [hy.1]
      · nlinarith [hy.2]
    have hne' := hne t ht0 ht1
    refine calculate_distance_pos hpa hpb hx.1 hx.2 hyy.1 hyy.2 ?_
    rcases hne' with h' | h'
    · exact Or.inl (Ne.symm h')
    · exact Or.inr (Ne.symm h')

/-- If the query point is not on the line through the segment (nonzero cross
product), the segment distance is strictly positive. -/
lemma seg_dist_pos_of_cross (px py x1 y1 x2 y2 : ℝ)
    (hb : -90 < px ∧ px < 90 ∧ -90 < x1 ∧ x1 < 90 ∧ -90 < x2 ∧ x2 < 90 ∧
      -360 < y1 - py ∧ y1 - py < 360 ∧ -360 < y2 - py ∧ y2 - py < 360)
    (hcross : (px - x1) * (y2 - y1) ≠ (py - y1) * (x2 - x1)) :
    0 < (distance_to_line_segment px py x1 y1 x2 y2).1 := by
  refine seg_dist_pos px py x1 y1 x2 y2 hb ?_
  intro t ht0 ht1
  by_contra hcon
  push_neg at hcon
  obtain ⟨hcx, hcy⟩ := hcon
  apply hcross
  have e1 : px - x1 = t * (x2 - x1) := by linarith
  have e2 : py - y1 = t * (y2 - y1) := by linarith
  rw [e1, e2]
  ring

/-- Projecting the segment start point onto the segment gives distance 0 at `t = 0`
(in both branches of the zero-length test). -/
lemma distance_to_line_segment_self_start (x1 y1 x2 y2 : ℝ) :
    distance_to_line_segment x1 y1 x1 y1 x2 y2 = (0, 0) := by
  unfold distance_to_line_segment
  simp only
  split_ifs with h
  · rw [calculate_distance_self]
  · have ht : ((x1 - x1) * (x2 - x1) + (y1 - y1) * (y2 - y1)) /
        ((x2 - x1) * (x2 - x1) + (y2 - y1) * (y2 - y1)) = 0 := by
      rw [show (x1 - x1) * (x2 - x1) + (y1 - y1) * (y2 - y1) = 0 by ring, zero_div]
    rw [ht]
    norm_num
    rw [calculate_distance_self]

/-- Projecting the segment end point of a nondegenerate segment onto the segment
gives distance 0 at `t = 1`. -/
lemma distance_to_line_segment_self_end (x1 y1 x2 y2 : ℝ)
    (h : ¬(x2 - x1 = 0 ∧ y2 - y1 = 0)) :
    distance_to_line_segment x2 y2 x1 y1 x2 y2 = (0, 1) := by
  unfold distance_to_line_segment
  simp only
  rw [if_neg h]
  have hD : (x2 - x1) * (x2 - x1) + (y2 - y1) * (y2 - y1) ≠ 0 := by
    rcases not_and_or.mp h with h' | h'
    · have : 0 < (x2 - x1) * (x2 - x1) := mul_self_pos.mpr h'
      nlinarith [mul_self_nonneg (y2 - y1)]
    · have : 0 < (y2 - y1) * (y2 - y1) := mul_self_pos.mpr h'
      nlinarith [mul_self_nonneg (x2 - x1)]
  have ht : ((x2 - x1) * (x2 - x1) + (y2 - y1) * (y2 - y1)) /
      ((x2 - x1) * (x2 - x1) + (y2 - y1) * (y2 - y1)) = 1 := div_self hD
  rw [ht]
  norm_num
  exact calculate_distance_self x2 y2

lemma bestFold_first_zero_split_aux (lat lon : ℝ) (x : Seg) (L₂ : List Seg)
    (hx : (segmentDistT lat lon x).1 = 0) :
    ∀ (L₁ : List Seg) (b : ℕ) (st : Option (ℝ × ℕ × ℝ)),
      (∀ y ∈ L₁, 0 < (segmentDistT lat lon y).1) →
      (st = none ∨ ∃ m s t, st = some (m, s, t) ∧ 0 < m) →
      bestFold lat lon (L₁ ++ x :: L₂) b st =
        some (0, b + L₁.length, (segmentDistT lat lon x).2) := by
  intro L₁
  induction L₁ with
  | nil =>
    intro b st h₁ hst
    rcases hst with rfl | ⟨m, s, t, rfl, hm⟩
    · simp only [List.nil_append, bestFold, List.length_nil, Nat.add_zero]
      rw [hx]
      exact bestFold_zero lat lon L₂ (b + 1) b _
    · simp only [List.nil_append, bestFold, List.length_nil, Nat.add_zero]
      rw [hx, if_pos hm]
      exact bestFold_zero lat lon L₂ (b + 1) b _
  | cons y L₁' ih =>
    intro b st h₁ hst
    have hy : 0 < (segmentDistT lat lon y).1 := h₁ y (List.mem_cons_self y L₁')
    have h₁' : ∀ z ∈ L₁', 0 < (segmentDistT lat lon z).1 :=
      fun z hz => h₁ z (List.mem_cons_of_mem y hz)
    have hlenshift : b + (y :: L₁').length = (b + 1) + L₁'.length := by
      simp only [List.length_cons]
      omega
    rcases hst with rfl | ⟨m, s, t, rfl, hm⟩
    · simp only [List.cons_append, bestFold]
      rw [hlenshift]
      exact ih (b + 1) _ h₁'
        (Or.inr ⟨(segmentDistT lat lon y).1, b, (segmentDistT lat lon y).2, rfl, hy⟩)
    · simp only [List.cons_append, bestFold]
      rw [hlenshift]
      by_cases hlt : (segmentDistT lat lon y).1 < m
      · rw [if_pos hlt]
        exact ih (b + 1) _ h₁'
          (Or.inr ⟨(segmentDistT lat lon y).1, b, (segmentDistT lat lon y).2, rfl, hy⟩)
      · rw [if_neg hlt]
        exact ih (b + 1) _ h₁' (Or.inr ⟨m, s, t, rfl, hm⟩)

/-- The minimum-tracking loop, run on a segment list whose first zero-distance
segment is `x` (all segments before `x` have positive distance), selects `x`. -/
lemma bestFold_first_zero_split (lat lon : ℝ) (L₁ L₂ : List Seg) (x : Seg)
    (h₁ : ∀ y ∈ L₁, 0 < (segmentDistT lat lon y).1)
    (hx : (segmentDistT lat lon x).1 = 0) :
    bestFold lat lon (L₁ ++ x :: L₂) 0 none =
      some (0, L₁.length, (segmentDistT lat lon x).2) := by
  have := bestFold_first_zero_split_aux lat lon x L₂ hx L₁ 0 none h₁ (Or.inl rfl)
  simpa using this

/-- Waypoint `i` of the scenic loop table (with a default for out-of-range indices). -/
noncomputable def waypointAt (i : ℕ) : Waypoint := SCENIC_LOOP_WAYPOINTS.getD i (0, 0, "")

/-- Segment 0 of the scenic loop path (waypoints 0 and 1). -/
noncomputable def seg0 : Seg :=
  ((36.1588, -115.4264, "Visitor Center / Entrance"),
   (36.1450, -115.4450, "Early Drive Section"))

/-- Segment 1 of the scenic loop path (waypoints 1 and 2). -/
noncomputable def seg1 : Seg :=
  ((36.1450, -115.4450, "Early Drive Section"),
   (36.1300, -115.4600, "Calico Hills Approach"))

/-- Segment 2 of the scenic loop path (waypoints 2 and 3). -/
noncomputable def seg2 : Seg :=
  ((36.1300, -115.4600, "Calico Hills Approach"),
   (36.1480, -115.4280, "Calico Basin / First Pullout"))

/-- Segment 3 of the scenic loop path (waypoints 3 and 4). -/
noncomputable def seg3 : Seg :=
  ((36.1480, -115.4280, "Calico Basin / First Pullout"),
   (36.1200, -115.4700, "Central Canyon Area"))

/-- Segment 4 of the scenic loop path (waypoints 4 and 5). -/
noncomputable def seg4 : Seg :=
  ((36.1200, -115.4700, "Central Canyon Area"),
   (36.1000, -115.4800, "Southern Canyon Area"))

/-- Segment 5 of the scenic loop path (waypoints 5 and 6). -/
noncomputable def seg5 : Seg :=
  ((36.1000, -115.4800, "Southern Canyon Area"),
   (36.1100, -115.5000, "Pine Creek Canyon"))

/-- Segment 6 of the scenic loop path (waypoints 6 and 7). -/
noncomputable def seg6 : Seg :=
  ((36.1100, -115.5000, "Pine Creek Canyon"),
   (36.1150, -115.4900, "Juniper Canyon"))

/-- Segment 7 of the scenic loop path (waypoints 7 and 8). -/
noncomputable def seg7 : Seg :=
  ((36.1150, -115.4900, "Juniper Canyon"),
   (36.1250, -115.4850, "Icebox Canyon Area"))

/-- Segment 8 of the scenic loop path (waypoints 8 and 9). -/
noncomputable def seg8 : Seg :=
  ((36.1250, -115.4850, "Icebox Canyon Area"),
   (36.1350, -115.4800, "Willow Spring Area"))

/-- Segment 9 of the scenic loop path (waypoints 9 and 10). -/
noncomputable def seg9 : Seg :=
  ((36.1350, -115.4800, "Willow Spring Area"),
   (36.1500, -115.4650, "Late Drive Section"))

/-- Segment 10 of the scenic loop path (waypoints 10 and 11). -/
noncomputable def seg10 : Seg :=
  ((36.1500, -115.4650, "Late Drive Section"),
   (36.1588, -115.4264, "Return to Visitor Center"))

/-- C2 (amended): for every waypoint index i with 0 ≤ i < W-1, projecting the
waypoint's own coordinates onto the path returns progress exactly i/(W-1) and
minimum distance exactly 0.  The final index i = W-1 is excluded: waypoint 11
duplicates waypoint 0, so the strict-less-than minimum tracking assigns it to
segment 0 with progress 0, not 1 (see the counterexample theorem). -/
theorem waypoint_progress (i : ℕ) (hi : i < SCENIC_LOOP_WAYPOINTS.length - 1) :
    find_closest_waypoint_on_path (waypointAt i).1 (waypointAt i).2.1 =
      ((i : ℝ) / ((SCENIC_LOOP_WAYPOINTS.length : ℝ) - 1), 0) := by
  have hlen : SCENIC_LOOP_WAYPOINTS.length = 12 := rfl
  have hi11 : i < 11 := by omega
  interval_cases i
  · rw [show waypointAt 0 = ((36.1588 : ℝ), (-115.4264 : ℝ), "Visitor Center / Entrance") from rfl]
    dsimp only
    unfold find_closest_waypoint_on_path find_closest_waypoint_on_path_aux
    rw [show SCENIC_LOOP_WAYPOINTS.zip SCENIC_LOOP_WAYPOINTS.tail =
        ([] : List Seg) ++ seg0 :: [seg1, seg2, seg3, seg4, seg5, seg6, seg7, seg8, seg9, seg10] from rfl]
    have hx : segmentDistT 36.1588 (-115.4264) seg0 = (0, 0) :=
      distance_to_line_segment_self_start 36.1588 (-115.4264) 36.1450 (-115.4450)
    have h₁ : ∀ y ∈ ([] : List Seg), 0 < (segmentDistT 36.1588 (-115.4264) y).1 := by
      intro y hy
      exact absurd hy (List.not_mem_nil y)
    have hfold := bestFold_first_zero_split 36.1588 (-115.4264) ([] : List Seg)
        [seg1, seg2, seg3, seg4, seg5, seg6, seg7, seg8, seg9, seg10] seg0 h₁ (by rw [hx])
    rw [hfold, hx]
    norm_num [SCENIC_LOOP_WAYPOINTS]
  · rw [show waypointAt 1 = ((36.1450 : ℝ), (-115.4450 : ℝ), "Early Drive Section") from rfl]
    dsimp only
    unfold find_closest_waypoint_on_path find_closest_waypoint_on_path_aux
    rw [show SCENIC_LOOP_WAYPOINTS.zip SCENIC_LOOP_WAYPOINTS.tail =
        ([] : List Seg) ++ seg0 :: [seg1, seg2, seg3, seg4, seg5, seg6, seg7, seg8, seg9, seg10] from rfl]
    have hx : segmentDistT 36.1450 (-115.4450) seg0 = (0, 1) :=
      distance_to_line_segment_self_end 36.1588 (-115.4264) 36.1450 (-115.4450) (by norm_num)
    have h₁ : ∀ y ∈ ([] : List Seg), 0 < (segmentDistT 36.1450 (-115.4450) y).1 := by
      intro y hy
      exact absurd hy (List.not_mem_nil y)
    have hfold := bestFold_first_zero_split 36.1450 (-115.4450) ([] : List Seg)
        [seg1, seg2, seg3, seg4, seg5, seg6, seg7, seg8, seg9, seg10] seg0 h₁ (by rw [hx])
    rw [hfold, hx]
    norm_num [SCENIC_LOOP_WAYPOINTS]
  · rw [show waypointAt 2 = ((36.1300 : ℝ), (-115.4600 : ℝ), "Calico Hills Approach") from rfl]
    dsimp only
    unfold find_closest_waypoint_on_path find_closest_waypoint_on_path_aux
    rw [show SCENIC_LOOP_WAYPOINTS.zip SCENIC_LOOP_WAYPOINTS.tail =
        [seg0] ++ seg1 :: [seg2, seg3, seg4, seg5, seg6, seg7, seg8, seg9, seg10] from rfl]
    have hx : segmentDistT 36.1300 (-115.4600) seg1 = (0, 1) :=
      distance_to_line_segment_self_end 36.1450 (-115.4450) 36.1300 (-115.4600) (by norm_num)
    have h₁ : ∀ y ∈ [seg0], 0 < (segmentDistT 36.1300 (-115.4600) y).1 := by
      intro y hy
      fin_cases hy
      · exact seg_dist_pos_of_cross 36.1300 (-115.4600) 36.1588 (-115.4264) 36.1450 (-115.4450)
          (by norm_num) (by norm_num)
    have hfold := bestFold_first_zero_split 36.1300 (-115.4600) [seg0]
        [seg2, seg3, seg4, seg5, seg6, seg7, seg8, seg9, seg10] seg1 h₁ (by rw [hx])
    rw [hfold, hx]
    norm_num [SCENIC_LOOP_WAYPOINTS]
  · rw [show waypointAt 3 = ((36.1480 : ℝ), (-115.4280 : ℝ), "Calico Basin / First Pullout") from rfl]
    dsimp only
    unfold find_closest_waypoint_on_path find_closest_waypoint_on_path_aux
    rw [show SCENIC_LOOP_WAYPOINTS.zip SCENIC_LOOP_WAYPOINTS.tail =
        [seg0, seg1] ++ seg2 :: [seg3, seg4, seg5, seg6, seg7, seg8, seg9, seg10] from rfl]
    have hx : segmentDistT 36.1480 (-115.4280) seg2 = (0, 1) :=
      distance_to_line_segment_self_end 36.1300 (-115.4600) 36.1480 (-115.4280) (by norm_num)
    have h₁ : ∀ y ∈ [seg0, seg1], 0 < (segmentDistT 36.1480 (-115.4280) y).1 := by
      intro y hy
      fin_cases hy
      · exact seg_dist_pos_of_cross 36.1480 (-115.4280) 36.1588 (-115.4264) 36.1450 (-115.4450)
          (by norm_num) (by norm_num)
      · exact seg_dist_pos_of_cross 36.1480 (-115.4280) 36.1450 (-115.4450) 36.1300 (-115.4600)
          (by norm_num) (by norm_num)
    have hfold := bestFold_first_zero_split 36.1480 (-115.4280) [seg0, seg1]
        [seg3, seg4, seg5, seg6, seg7, seg8, seg9, seg10] seg2 h₁ (by rw [hx])
    rw [hfold, hx]
    norm_num [SCENIC_LOOP_WAYPOINTS]
  · rw [show waypointAt 4 = ((36.1200 : ℝ), (-115.4700 : ℝ), "Central Canyon Area") from rfl]
    dsimp only
    unfold find_closest_waypoint_on_path find_closest_waypoint_on_path_aux
    rw [show SCENIC_LOOP_WAYPOINTS.zip SCENIC_LOOP_WAYPOINTS.tail =
        [seg0, seg1, seg2] ++ seg3 :: [seg4, seg5, seg6, seg7, seg8, seg9, seg10] from rfl]
    have hx : segmentDistT 36.1200 (-115.4700) seg3 = (0, 1) :=
      distance_to_line_segment_self_end 36.1480 (-115.4280) 36.1200 (-115.4700) (by norm_num)
    have h₁ : ∀ y ∈ [seg0, seg1, seg2], 0 < (segmentDistT 36.1200 (-115.4700) y).1 := by
      intro y hy
      fin_cases hy
      · exact seg_dist_pos_of_cross 36.1200 (-115.4700) 36.1588 (-115.4264) 36.1450 (-115.4450)
          (by norm_num) (by norm_num)
      · exact seg_dist_pos 36.1200 (-115.4700) 36.1450 (-115.4450) 36.1300 (-115.4600)
          (by norm_num)
          (by intro t ht0 ht1; left; intro hcon; nlinarith)
      · exact seg_dist_pos_of_cross 36.1200 (-115.4700) 36.1300 (-115.4600) 36.1480 (-115.4280)
          (by norm_num) (by norm_num)
    have hfold := bestFold_first_zero_split 36.1200 (-115.4700) [seg0, seg1, seg2]
        [seg4, seg5, seg6, seg7, seg8, seg9, seg10] seg3 h₁ (by rw [hx])
    rw [hfold, hx]
    norm_num [SCENIC_LOOP_WAYPOINTS]
  · rw [show waypointAt 5 = ((36.1000 : ℝ), (-115.4800 : ℝ), "Southern Canyon Area") from rfl]
    dsimp only
    unfold find_closest_waypoint_on_path find_closest_waypoint_on_path_aux
    rw [show SCENIC_LOOP_WAYPOINTS.zip SCENIC_LOOP_WAYPOINTS.tail =
        [seg0, seg1, seg2, seg3] ++ seg4 :: [seg5, seg6, seg7, seg8, seg9, seg10] from rfl]
    have hx : segmentDistT 36.1000 (-115.4800) seg4 = (0, 1) :=
      distance_to_line_segment_self_end 36.1200 (-115.4700) 36.1000 (-115.4800) (by norm_num)
    have h₁ : ∀ y ∈ [seg0, seg1, seg2, seg3], 0 < (segmentDistT 36.1000 (-115.4800) y).1 := by
      intro y hy
      fin_cases hy
      · exact seg_dist_pos_of_cross 36.1000 (-115.4800) 36.1588 (-115.4264) 36.1450 (-115.4450)
          (by norm_num) (by norm_num)
      · exact seg_dist_pos_of_cross 36.1000 (-115.4800) 36.1450 (-115.4450) 36.1300 (-115.4600)
          (by norm_num) (by norm_num)
      · exact seg_dist_pos_of_cross 36.1000 (-115.4800) 36.1300 (-115.4600) 36.1480 (-115.4280)
          (by norm_num) (by norm_num)
      · exact seg_dist_pos_of_cross 36.1000 (-115.4800) 36.1480 (-115.4280) 36.1200 (-115.4700)
          (by norm_num) (by norm_num)
    have hfold := bestFold_first_zero_split 36.1000 (-115.4800) [seg0, seg1, seg2, seg3]
        [seg5, seg6, seg7, seg8, seg9, seg10] seg4 h₁ (by rw [hx])
    rw [hfold, hx]
    norm_num [SCENIC_LOOP_WAYPOINTS]
  · rw [show waypointAt 6 = ((36.1100 : ℝ), (-115.5000 : ℝ), "Pine Creek Canyon") from rfl]
    dsimp only
    unfold find_closest_waypoint_on_path find_closest_waypoint_on_path_aux
    rw [show SCENIC_LOOP_WAYPOINTS.zip SCENIC_LOOP_WAYPOINTS.tail =
        [seg0, seg1, seg2, seg3, seg4] ++ seg5 :: [seg6, seg7, seg8, seg9, seg10] from rfl]
    have hx : segmentDistT 36.1100 (-115.5000) seg5 = (0, 1) :=
      distance_to_line_segment_self_end 36.1000 (-115.4800) 36.1100 (-115.5000) (by norm_num)
    have h₁ : ∀ y ∈ [seg0, seg1, seg2, seg3, seg4], 0 < (segmentDistT 36.1100 (-115.5000) y).1 := by
      intro y hy
      fin_cases hy
      · exact seg_dist_pos_of_cross 36.1100 (-115.5000) 36.1588 (-115.4264) 36.1450 (-115.4450)
          (by norm_num) (by norm_num)
      · exact seg_dist_pos_of_cross 36.1100 (-115.5000) 36.1450 (-115.4450) 36.1300 (-115.4600)
          (by norm_num) (by norm_num)
      · exact seg_dist_pos_of_cross 36.1100 (-115.5000) 36.1300 (-115.4600) 36.1480 (-115.4280)
          (by norm_num) (by norm_num)
      · exact seg_dist_pos_of_cross 36.1100 (-115.5000) 36.1480 (-115.4280) 36.1200 (-115.4700)
          (by norm_num) (by norm_num)
      · exact seg_dist_pos_of_cross 36.1100 (-115.5000) 36.1200 (-115.4700) 36.1000 (-115.4800)
          (by norm_num) (by norm_num)
    have hfold := bestFold_first_zero_split 36.1100 (-115.5000) [seg0, seg1, seg2, seg3, seg4]
        [seg6, seg7, seg8, seg9, seg10] seg5 h₁ (by rw [hx])
    rw [hfold, hx]
    norm_num [SCENIC_LOOP_WAYPOINTS]
  · rw [show waypointAt 7 = ((36.1150 : ℝ), (-115.4900 : ℝ), "Juniper Canyon") from rfl]
    dsimp only
    unfold find_closest_waypoint_on_path find_closest_waypoint_on_path_aux
    rw [show SCENIC_LOOP_WAYPOINTS.zip SCENIC_LOOP_WAYPOINTS.tail =
        [seg0, seg1, seg2, seg3, seg4, seg5] ++ seg6 :: [seg7, seg8, seg9, seg10] from rfl]
    have hx : segmentDistT 36.1150 (-115.4900) seg6 = (0, 1) :=
      distance_to_line_segment_self_end 36.1100 (-115.5000) 36.1150 (-115.4900) (by norm_num)
    have h₁ : ∀ y ∈ [seg0, seg1, seg2, seg3, seg4, seg5], 0 < (segmentDistT 36.1150 (-115.4900) y).1 := by
      intro y hy
      fin_cases hy
      · exact seg_dist_pos_of_cross 36.1150 (-115.4900) 36.1588 (-115.4264) 36.1450 (-115.4450)
          (by norm_num) (by norm_num)
      · exact seg_dist_pos_of_cross 36.1150 (-115.4900) 36.1450 (-115.4450) 36.1300 (-115.4600)
          (by norm_num) (by norm_num)
      · exact seg_dist_pos_of_cross 36.1150 (-115.4900) 36.1300 (-115.4600) 36.1480 (-115.4280)
          (by norm_num) (by norm_num)
      · exact seg_dist_pos_of_cross 36.1150 (-115.4900) 36.1480 (-115.4280) 36.1200 (-115.4700)
          (by norm_num) (by norm_num)
      · exact seg_dist_pos_of_cross 36.1150 (-115.4900) 36.1200 (-115.4700) 36.1000 (-115.4800)
          (by norm_num) (by norm_num)
      · exact seg_dist_pos_of_cross 36.1150 (-115.4900) 36.1000 (-115.4800) 36.1100 (-115.5000)
          (by norm_num) (by norm_num)
    have hfold := bestFold_first_zero_split 36.1150 (-115.4900) [seg0, seg1, seg2, seg3, seg4, seg5]
        [seg7, seg8, seg9, seg10] seg6 h₁ (by rw [hx])
    rw [hfold, hx]
    norm_num [SCENIC_LOOP_WAYPOINTS]
  · rw [show waypointAt 8 = ((36.1250 : ℝ), (-115.4850 : ℝ), "Icebox Canyon Area") from rfl]
    dsimp only
    unfold find_closest_waypoint_on_path find_closest_waypoint_on_path_aux
    rw [show SCENIC_LOOP_WAYPOINTS.zip SCENIC_LOOP_WAYPOINTS.tail =
        [seg0, seg1, seg2, seg3, seg4, seg5, seg6] ++ seg7 :: [seg8, seg9, seg10] from rfl]
    have hx : segmentDistT 36.1250 (-115.4850) seg7 = (0, 1) :=
      distance_to_line_segment_self_end 36.1150 (-115.4900) 36.1250 (-115.4850) (by norm_num)
    have h₁ : ∀ y ∈ [seg0, seg1, seg2, seg3, seg4, seg5, seg6], 0 < (segmentDistT 36.1250 (-115.4850) y).1 := by
      intro y hy
      fin_cases hy
      · exact seg_dist_pos_of_cross 36.1250 (-115.4850) 36.1588 (-115.4264) 36.1450 (-115.4450)
          (by norm_num) (by norm_num)
      · exact seg_dist_pos_of_cross 36.1250 (-115.4850) 36.1450 (-115.4450) 36.1300 (-115.4600)
          (by norm_num) (by norm_num)
      · exact seg_dist_pos_of_cross 36.1250 (-115.4850) 36.1300 (-115.4600) 36.1480 (-115.4280)
          (by norm_num) (by norm_num)
      · exact seg_dist_pos_of_cross 36.1250 (-115.4850) 36.1480 (-115.4280) 36.1200 (-115.4700)
          (by norm_num) (by norm_num)
      · exact seg_dist_pos_of_cross 36.1250 (-115.4850) 36.1200 (-115.4700) 36.1000 (-115.4800)
          (by norm_num) (by norm_num)
      · exact seg_dist_pos_of_cross 36.1250 (-115.4850) 36.1000 (-115.4800) 36.1100 (-115.5000)
          (by norm_num) (by norm_num)
      · exact seg_dist_pos_of_cross 36.1250 (-115.4850) 36.1100 (-115.5000) 36.1150 (-115.4900)
          (by norm_num) (by norm_num)
    have hfold := bestFold_first_zero_split 36.1250 (-115.4850) [seg0, seg1, seg2, seg3, seg4, seg5, seg6]
        [seg8, seg9, seg10] seg7 h₁ (by rw [hx])
    rw [hfold, hx]
    norm_num [SCENIC_LOOP_WAYPOINTS]
  · rw [show waypointAt 9 = ((36.1350 : ℝ), (-115.4800 : ℝ), "Willow Spring Area") from rfl]
    dsimp only
    unfold find_closest_waypoint_on_path find_closest_waypoint_on_path_aux
    rw [show SCENIC_LOOP_WAYPOINTS.zip SCENIC_LOOP_WAYPOINTS.tail =
        [seg0, seg1, seg2, seg3, seg4, seg5, seg6, seg7] ++ seg8 :: [seg9, seg10] from rfl]
    have hx : segmentDistT 36.1350 (-115.4800) seg8 = (0, 1) :=
      distance_to_line_segment_self_end 36.1250 (-115.4850) 36.1350 (-115.4800) (by norm_num)
    have h₁ : ∀ y ∈ [seg0, seg1, seg2, seg3, seg4, seg5, seg6, seg7], 0 < (segmentDistT 36.1350 (-115.4800) y).1 := by
      intro y hy
      fin_cases hy
      · exact seg_dist_pos_of_cross 36.1350 (-115.4800) 36.1588 (-115.4264) 36.1450 (-115.4450)
          (by norm_num) (by norm_num)
      · exact seg_dist_pos_of_cross 36.1350 (-115.4800) 36.1450 (-115.4450) 36.1300 (-115.4600)
          (by norm_num) (by norm_num)
      · exact seg_dist_pos_of_cross 36.1350 (-115.4800) 36.1300 (-115.4600) 36.1480 (-115.4280)
          (by norm_num) (by norm_num)
      · exact seg_dist_pos_of_cross 36.1350 (-115.4800) 36.1480 (-115.4280) 36.1200 (-115.4700)
          (by norm_num) (by norm_num)
      · exact seg_dist_pos_of_cross 36.1350 (-115.4800) 36.1200 (-115.4700) 36.1000 (-115.4800)
          (by norm_num) (by norm_num)
      · exact seg_dist_pos_of_cross 36.1350 (-115.4800) 36.1000 (-115.4800) 36.1100 (-115.5000)
          (by norm_num) (by norm_num)
      · exact seg_dist_pos_of_cross 36.1350 (-115.4800) 36.1100 (-115.5000) 36.1150 (-115.4900)
          (by norm_num) (by norm_num)
      · exact seg_dist_pos 36.1350 (-115.4800) 36.1150 (-115.4900) 36.1250 (-115.4850)
          (by norm_num)
          (by intro t ht0 ht1; left; intro hcon; nlinarith)
    have hfold := bestFold_first_zero_split 36.1350 (-115.4800) [seg0, seg1, seg2, seg3, seg4, seg5, seg6, seg7]
        [seg9, seg10] seg8 h₁ (by rw [hx])
    rw [hfold, hx]
    norm_num [SCENIC_LOOP_WAYPOINTS]
  · rw [show waypointAt 10 = ((36.1500 : ℝ), (-115.4650 : ℝ), "Late Drive Section") from rfl]
    dsimp only
    unfold find_closest_waypoint_on_path find_closest_waypoint_on_path_aux
    rw [show SCENIC_LOOP_WAYPOINTS.zip SCENIC_LOOP_WAYPOINTS.tail =
        [seg0, seg1, seg2, seg3, seg4, seg5, seg6, seg7, seg8] ++ seg9 :: [seg10] from rfl]
    have hx : segmentDistT 36.1500 (-115.4650) seg9 = (0, 1) :=
      distance_to_line_segment_self_end 36.1350 (-115.4800) 36.1500 (-115.4650) (by norm_num)
    have h₁ : ∀ y ∈ [seg0, seg1, seg2, seg3, seg4, seg5, seg6, seg7, seg8], 0 < (segmentDistT 36.1500 (-115.4650) y).1 := by
      intro y hy
      fin_cases hy
      · exact seg_dist_pos_of_cross 36.1500 (-115.4650) 36.1588 (-115.4264) 36.1450 (-115.4450)
          (by norm_num) (by norm_num)
      · exact seg_dist_pos_of_cross 36.1500 (-115.4650) 36.1450 (-115.4450) 36.1300 (-115.4600)
          (by norm_num) (by norm_num)
      · exact seg_dist_pos_of_cross 36.1500 (-115.4650) 36.1300 (-115.4600) 36.1480 (-115.4280)
          (by norm_num) (by norm_num)
      · exact seg_dist_pos_of_cross 36.1500 (-115.4650) 36.1480 (-115.4280) 36.1200 (-115.4700)
          (by norm_num) (by norm_num)
      · exact seg_dist_pos_of_cross 36.1500 (-115.4650) 36.1200 (-115.4700) 36.1000 (-115.4800)
          (by norm_num) (by norm_num)
      · exact seg_dist_pos_of_cross 36.1500 (-115.4650) 36.1000 (-115.4800) 36.1100 (-115.5000)
          (by norm_num) (by norm_num)
      · exact seg_dist_pos_of_cross 36.1500 (-115.4650) 36.1100 (-115.5000) 36.1150 (-115.4900)
          (by norm_num) (by norm_num)
      · exact seg_dist_pos_of_cross 36.1500 (-115.4650) 36.1150 (-115.4900) 36.1250 (-115.4850)
          (by norm_num) (by norm_num)
      · exact seg_dist_pos_of_cross 36.1500 (-115.4650) 36.1250 (-115.4850) 36.1350 (-115.4800)
          (by norm_num) (by norm_num)
    have hfold := bestFold_first_zero_split 36.1500 (-115.4650) [seg0, seg1, seg2, seg3, seg4, seg5, seg6, seg7, seg8]
        [seg10] seg9 h₁ (by rw [hx])
    rw [hfold, hx]
    norm_num [SCENIC_LOOP_WAYPOINTS]

/-- C2 counterexample: at the last waypoint (index 11 = W-1, which coincides
with waypoint 0), the projector returns progress 0, while the claim as stated
demands progress 11/(W-1) = 1.  So the claim fails for i = W-1. -/
theorem waypoint_final_progress_not_claimed :
    find_closest_waypoint_on_path (waypointAt 11).1 (waypointAt 11).2.1 = (0, 0) ∧
      (11 : ℝ) / ((SCENIC_LOOP_WAYPOINTS.length : ℝ) - 1) ≠ 0 := by
  constructor
  · rw [show waypointAt 11 = ((36.1588 : ℝ), (-115.4264 : ℝ), "Return to Visitor Center")
      from rfl]
    dsimp only
    unfold find_closest_waypoint_on_path find_closest_waypoint_on_path_aux
    rw [show SCENIC_LOOP_WAYPOINTS.zip SCENIC_LOOP_WAYPOINTS.tail =
        ([] : List Seg) ++ seg0 :: [seg1, seg2, seg3, seg4, seg5, seg6, seg7, seg8, seg9,
          seg10] from rfl]
    have hx : segmentDistT 36.1588 (-115.4264) seg0 = (0, 0) :=
      distance_to_line_segment_self_start 36.1588 (-115.4264) 36.1450 (-115.4450)
    have h₁ : ∀ y ∈ ([] : List Seg), 0 < (segmentDistT 36.1588 (-115.4264) y).1 := by
      intro y hy
      exact absurd hy (List.not_mem_nil y)
    have hfold := bestFold_first_zero_split 36.1588 (-115.4264) ([] : List Seg)
        [seg1, seg2, seg3, seg4, seg5, seg6, seg7, seg8, seg9, seg10] seg0 h₁ (by rw [hx])
    rw [hfold, hx]
    norm_num
  · norm_num [SCENIC_LOOP_WAYPOINTS]

/-- Witness for C2 (amended) at waypoint index 3. -/
theorem waypoint_progress_witness :
    3 < SCENIC_LOOP_WAYPOINTS.length - 1 ∧
      find_closest_waypoint_on_path (waypointAt 3).1 (waypointAt 3).2.1 =
        (((3 : ℕ) : ℝ) / ((SCENIC_LOOP_WAYPOINTS.length : ℝ) - 1), 0) :=
  ⟨by decide, waypoint_progress 3 (by decide)⟩

/-- A route record as consumed by `analyze_scenic_loop_order` (the fields the
core reads and enriches). -/
structure RouteRecord where
  route : String
  area : String
  canyon : String
  latitude : ℝ
  longitude : ℝ

/-- Model of the attachment step of `analyze_scenic_loop_order`
(`analyze_scenic_loop_path.py` lines 146-169), including the pandas index
semantics of `df['Path_Position'] = path_df['Path_Position']`: the input
DataFrame is a list of rows with pandas index labels; `path_df` is built from
`path_data` in row order with a fresh RangeIndex 0..N-1; the column assignment
aligns on index labels, so a row of `df` labelled `l` receives the value of
`path_df` at label `l`, or NaN (modelled as `none`) when `path_df` has no row
`l`.  Rows dropped upstream by `load_data` leave gaps in `df`'s index, so
labels need not be 0..N-1.  (Duplicate labels are not modelled.) -/
noncomputable def attach_path_data (df : List (ℕ × RouteRecord)) :
    List (ℕ × RouteRecord × Option (ℝ × ℝ)) :=
  let path_df := (List.range df.length).zip
    (df.map (fun r => find_closest_waypoint_on_path r.2.latitude r.2.longitude))
  df.map (fun r => (r.1, r.2, path_df.lookup r.1))

/-- C1 exhibit: on a DataFrame whose index has a gap (a row was dropped by
`load_data`), the row labelled 2 is assigned NaN instead of the projection of
its own coordinate, contradicting the claimed per-record attachment. -/
theorem attach_path_data_misaligned :
    attach_path_data [(0, ⟨"Route A", "Calico Basin", "Red Rock", 36.15, -115.43⟩),
        (2, ⟨"Route B", "Calico Basin", "Red Rock", 36.12, -115.47⟩)] =
      [(0, ⟨"Route A", "Calico Basin", "Red Rock", 36.15, -115.43⟩,
          some (find_closest_waypoint_on_path 36.15 (-115.43))),
       (2, ⟨"Route B", "Calico Basin", "Red Rock", 36.12, -115.47⟩, none)] ∧
      (none : Option (ℝ × ℝ)) ≠ some (find_closest_waypoint_on_path 36.12 (-115.47)) := by
  constructor
  · rfl
  · exact fun h => Option.noConfusion h

/-- A row of the enriched CSV consumed by `create_area_summary_scenic`.  Only
the columns feeding the grouping, the mean path position, the minimum scenic
order and the member count are modelled; the other aggregated columns
(total_score, Avg Stars, Latitude, Longitude) play no role in the claims. -/
structure ScenicRow where
  area : String
  canyon : String
  pathPosition : ℝ
  scenicLoopOrder : ℕ

/-- Round half to even (the rounding used by pandas/numpy `.round`). -/
noncomputable def roundHalfEven (x : ℝ) : ℤ :=
  if Int.fract x < 1 / 2 then ⌊x⌋
  else if 1 / 2 < Int.fract x then ⌊x⌋ + 1
  else if Even ⌊x⌋ then ⌊x⌋ else ⌊x⌋ + 1

/-- `.round(4)` of the aggregation step: round to 4 decimal places. -/
noncomputable def round4 (x : ℝ) : ℝ := (roundHalfEven (x * 10000) : ℝ) / 10000

/-- The group key of a row: the exact (Area, Canyon) pair. -/
def rowKey (r : ScenicRow) : String × String := (r.area, r.canyon)

/-- The members of a group: rows whose (Area, Canyon) pair matches exactly. -/
def groupMembers (rs : List ScenicRow) (k : String × String) : List ScenicRow :=
  rs.filter (fun r => r.area == k.1 && r.canyon == k.2)

/-- `min` aggregation over a group's `Scenic_Loop_Order` values (groups are
never empty, so the `[]` case is unreachable). -/
def minOrder : List ℕ → ℕ
  | [] => 0
  | x :: xs => xs.foldl min x

/-- Lexicographic order on (Area, Canyon) keys: pandas `groupby` sorts the
group keys. -/
def keyLe (a b : String × String) : Prop := a.1 < b.1 ∨ (a.1 = b.1 ∧ a.2 ≤ b.2)

instance : DecidableRel keyLe := fun a b => by unfold keyLe; infer_instance

/-- The distinct group keys, sorted lexicographically as pandas `groupby` does. -/
def summaryKeys (rs : List ScenicRow) : List (String × String) :=
  List.insertionSort keyLe (rs.map rowKey).dedup

/-- One output row of the area summary (the modelled columns). -/
structure AreaSummaryRow where
  area : String
  canyon : String
  numRoutes : ℕ
  avgPathPosition : ℝ
  firstScenicOrder : ℕ

/-- Aggregation of one group: `.agg` with `'Route': 'count'`,
`'Path_Position': 'mean'`, `'Scenic_Loop_Order': 'min'`, followed by
`.round(4)` (a no-op on the integer count and min columns). -/
noncomputable def mkAreaRow (rs : List ScenicRow) (k : String × String) : AreaSummaryRow :=
  let members := groupMembers rs k
  { area := k.1
    canyon := k.2
    numRoutes := members.length
    avgPathPosition :=
      round4 ((members.map (fun r => r.pathPosition)).sum / (members.length : ℝ))
    firstScenicOrder := minOrder (members.map (fun r => r.scenicLoopOrder)) }

/-- The order used by the final `sort_values('first_scenic_order')`. -/
def rowOrderLe (a b : AreaSummaryRow) : Prop := a.firstScenicOrder ≤ b.firstScenicOrder

instance : DecidableRel rowOrderLe := fun a b => Nat.decLe a.firstScenicOrder b.firstScenicOrder

instance : IsTotal AreaSummaryRow rowOrderLe :=
  ⟨fun a b => Nat.le_total a.firstScenicOrder b.firstScenicOrder⟩

instance : IsTrans AreaSummaryRow rowOrderLe :=
  ⟨fun _ _ _ hab hbc => Nat.le_trans hab hbc⟩

/-- The grouping/ordering core of `create_area_summary_scenic`
(`create_area_summary_scenic.py` lines 140-149 and 189-190): group rows by the
exact (Area, Canyon) pair, aggregate each group, then sort the groups by
`first_scenic_order` (first encounter on the scenic drive). -/
noncomputable def create_area_summary_scenic (rs : List ScenicRow) : List AreaSummaryRow :=
  List.insertionSort rowOrderLe ((summaryKeys rs).map (mkAreaRow rs))

lemma mkAreaRow_key (rs : List ScenicRow) (k : String × String) :
    ((mkAreaRow rs k).area, (mkAreaRow rs k).canyon) = k := by
  simp [mkAreaRow]

/-- C8 (amended): rows are grouped by the exact (Area, Canyon) pair, one output
row per distinct key; each group's member count is its number of rows, its mean
path position is the arithmetic mean of the members' progress values rounded to
4 decimal places (the example 0.10, 0.14 giving 0.12 is unaffected by
rounding), its first_scenic_order is the minimum member rank; and in the
scoring stage the groups are ordered by that minimum member rank
(first encounter), not by mean progress. -/
theorem create_area_summary_scenic_spec (rs : List ScenicRow) :
    ((create_area_summary_scenic rs).map (fun row => (row.area, row.canyon))).Nodup ∧
    (∀ k, k ∈ rs.map rowKey ↔
      k ∈ (create_area_summary_scenic rs).map (fun row => (row.area, row.canyon))) ∧
    (∀ row ∈ create_area_summary_scenic rs,
      row.numRoutes = (groupMembers rs (row.area, row.canyon)).length ∧
      row.avgPathPosition = round4 (((groupMembers rs (row.area, row.canyon)).map
          (fun r => r.pathPosition)).sum /
        ((groupMembers rs (row.area, row.canyon)).length : ℝ)) ∧
      row.firstScenicOrder = minOrder ((groupMembers rs (row.area, row.canyon)).map
        (fun r => r.scenicLoopOrder))) ∧
    (create_area_summary_scenic rs).Pairwise
      (fun a b => a.firstScenicOrder ≤ b.firstScenicOrder) := by
  have hperm : List.Perm (create_area_summary_scenic rs)
      ((summaryKeys rs).map (mkAreaRow rs)) :=
    List.perm_insertionSort rowOrderLe _
  have hkeysperm : List.Perm (summaryKeys rs) (rs.map rowKey).dedup :=
    List.perm_insertionSort keyLe _
  have hmapkeys : ((summaryKeys rs).map (mkAreaRow rs)).map
      (fun row => (row.area, row.canyon)) = summaryKeys rs := by
    rw [List.map_map]
    have : ((fun row => (row.area, row.canyon)) ∘ mkAreaRow rs) = id := by
      funext k
      exact mkAreaRow_key rs k
    rw [this, List.map_id]
  have hpermkeys : List.Perm
      ((create_area_summary_scenic rs).map (fun row => (row.area, row.canyon)))
      (summaryKeys rs) := by
    have := hperm.map (fun row => (row.area, row.canyon))
    rwa [hmapkeys] at this
  refine ⟨?_, ?_, ?_, ?_⟩
  · exact hpermkeys.nodup_iff.mpr (hkeysperm.nodup_iff.mpr (List.nodup_dedup _))
  · intro k
    rw [hpermkeys.mem_iff, hkeysperm.mem_iff, List.mem_dedup]
  · intro row hrow
    have : row ∈ (summaryKeys rs).map (mkAreaRow rs) := hperm.subset hrow
    obtain ⟨k, _, rfl⟩ := List.mem_map.mp this
    rw [mkAreaRow_key rs k]
    exact ⟨rfl, rfl, rfl⟩
  · exact List.sorted_insertionSort rowOrderLe _

/-- C8 counterexample: because of `.round(4)`, a group's reported mean path
position is not in general the arithmetic mean: three members with progress
0.0001, 0.0002, 0.0002 produce 0.0002, not their mean 1/6000. -/
theorem area_mean_rounding_counterexample :
    (create_area_summary_scenic
        [⟨"Calico Basin", "Red Rock", 0.0001, 1⟩,
         ⟨"Calico Basin", "Red Rock", 0.0002, 2⟩,
         ⟨"Calico Basin", "Red Rock", 0.0002, 3⟩]).map
      (fun row => row.avgPathPosition) = [0.0002] ∧
    (0.0002 : ℝ) ≠ ((0.0001 : ℝ) + 0.0002 + 0.0002) / 3 := by
  constructor
  · have hout : create_area_summary_scenic
        [⟨"Calico Basin", "Red Rock", 0.0001, 1⟩,
         ⟨"Calico Basin", "Red Rock", 0.0002, 2⟩,
         ⟨"Calico Basin", "Red Rock", 0.0002, 3⟩] =
        [mkAreaRow
          [⟨"Calico Basin", "Red Rock", 0.0001, 1⟩,
           ⟨"Calico Basin", "Red Rock", 0.0002, 2⟩,
           ⟨"Calico Basin", "Red Rock", 0.0002, 3⟩] ("Calico Basin", "Red Rock")] := rfl
    rw [hout]
    simp only [List.map_cons, List.map_nil, List.cons.injEq, and_true]
    show round4 (((0.0001 : ℝ) + (0.0002 + (0.0002 + 0))) / ((3 : ℕ) : ℝ)) = 0.0002
    have hfl : ⌊(5 / 3 : ℝ)⌋ = 1 := by
      rw [Int.floor_eq_iff]
      constructor <;> norm_num
    have hfr : Int.fract (5 / 3 : ℝ) = 2 / 3 := by
      unfold Int.fract
      rw [hfl]
      norm_num
    have hrhe : roundHalfEven (5 / 3 : ℝ) = 2 := by
      unfold roundHalfEven
      rw [hfr, hfl]
      norm_num
    unfold round4
    rw [show ((0.0001 : ℝ) + (0.0002 + (0.0002 + 0))) / ((3 : ℕ) : ℝ) * 10000 = 5 / 3 by
      push_cast
      norm_num]
    rw [hrhe]
    norm_num
  · norm_num

/-- Python `str.strip`: remove leading and trailing whitespace. -/
def pyStrip (cs : List Char) : List Char :=
  ((cs.dropWhile Char.isWhitespace).reverse.dropWhile Char.isWhitespace).reverse

/-- Python `str.upper` (ASCII model, which covers all rating strings). -/
def pyUpper (cs : List Char) : List Char := cs.map Char.toUpper

/-- One alternative of the modifier group `(PG13|PG|R|X|A\d|C\d)`, tried in
regex alternation order; returns the characters remaining after the match. -/
def matchModifier : List Char → Option (List Char)
  | 'P' :: 'G' :: '1' :: '3' :: rest => some rest
  | 'P' :: 'G' :: rest => some rest
  | 'R' :: rest => some rest
  | 'X' :: rest => some rest
  | 'A' :: d :: rest => if d.isDigit then some rest else none
  | 'C' :: d :: rest => if d.isDigit then some rest else none
  | _ => none

/-- Matches `\s+(PG13|PG|R|X|A\d|C\d)` at the head of the list: one or more
whitespace characters, then one modifier alternative.  (Greedy `\s+` is
equivalent to any other split because no alternative starts with whitespace.) -/
def matchWsModifier : List Char → Option (List Char)
  | [] => none
  | c :: rest =>
    if c.isWhitespace then
      match matchWsModifier rest with
      | some r => some r
      | none => matchModifier rest
    else none

/-- `re.sub(r'\s+(PG13|PG|R|X|A\d|C\d)', '', rating)`, scanning left to right,
written with explicit fuel so that it is structurally recursive (a successful
match always consumes at least two characters and a failed one advances by one,
so fuel equal to the length never runs out; a failed match inside a whitespace
run also fails at every later position of the run, so advancing one character
at a time agrees with the regex scan). -/
def subModifiersFuel : ℕ → List Char → List Char
  | 0, cs => cs
  | _ + 1, [] => []
  | f + 1, c :: rest =>
    match matchWsModifier (c :: rest) with
    | some r => subModifiersFuel f r
    | none => c :: subModifiersFuel f rest

/-- The modifier-stripping pass of `parse_rating`. -/
def subModifiers (cs : List Char) : List Char := subModifiersFuel cs.length cs

/-- Python `str.split()` with no arguments: split on whitespace runs,
discarding empty pieces. -/
def pySplitWs (cs : List Char) : List (List Char) :=
  (cs.splitOnP Char.isWhitespace).filter (fun t => !t.isEmpty)

/-- `re.sub(r'[+-]', '', s)`: drop every plus and minus sign. -/
def removePlusMinus (cs : List Char) : List Char :=
  cs.filter (fun c => !(c == '+') && !(c == '-'))

/-- Python `str.isdigit` (ASCII digits, which covers the rating strings). -/
def isdigitStr (cs : List Char) : Bool := !cs.isEmpty && cs.all Char.isDigit

/-- Numeric value of a digit string. -/
def digitsToNat (cs : List Char) : ℕ :=
  cs.foldl (fun n c => 10 * n + (c.toNat - '0'.toNat)) 0

/-- Python `float()` restricted to the strings that can reach the float branch
of `parse_rating` (plain decimals: an optional dot with digits around it; signs
were already removed; exponent forms are not modelled).  `none` models a
`ValueError`, caught by the surrounding `except`. -/
def pyFloatQ (cs : List Char) : Option ℚ :=
  match cs.splitOn '.' with
  | [ip] => if isdigitStr ip then some (digitsToNat ip : ℚ) else none
  | [ip, fp] =>
    if (ip.all Char.isDigit && fp.all Char.isDigit) && !(ip.isEmpty && fp.isEmpty) then
      some ((digitsToNat ip : ℚ) + (digitsToNat fp : ℚ) / (10 : ℚ) ^ fp.length)
    else none
  | _ => none

/-- `letter_values = {'A': 0.0, 'B': 0.25, 'C': 0.5, 'D': 0.75}` with
`.get(letter, 0)`. -/
def letterValue (c : Char) : ℚ :=
  if c = 'A' then 0
  else if c = 'B' then 1 / 4
  else if c = 'C' then 1 / 2
  else if c = 'D' then 3 / 4
  else 0

/-- `parse_rating(rating_str)` from `create_area_summary_scenic.py`.  The input
is an `Option String`; `none` models a pandas NaN (caught by `pd.isna`).
Values are exact rationals; the only operation that can raise inside the `try`
is `float()`, modelled by `pyFloatQ` returning `none`. -/
def parse_rating (rating_str : Option String) : ℚ :=
  match rating_str with
  | none => 0
  | some s =>
    if s = "" then 0
    else
      let rating := subModifiers (pyUpper (pyStrip s.data))
      if rating.take 2 = ['5', '.'] then
        let parts := pySplitWs (rating.drop 2)
        let base_rating := parts.headD []
        let clean_rating := removePlusMinus base_rating
        if isdigitStr clean_rating then (digitsToNat clean_rating : ℚ)
        else if clean_rating.contains '.' then
          match pyFloatQ clean_rating with
          | some q => q
          | none => 0
        else if 2 ≤ clean_rating.length ∧ isdigitStr clean_rating.dropLast then
          (digitsToNat clean_rating.dropLast : ℚ) + letterValue (clean_rating.getLastD ' ')
        else 0
      else 0

/-- `calculate_difficulty_score(rating_str)` from `create_area_summary_scenic.py`. -/
def calculate_difficulty_score (rating_str : Option String) : ℕ :=
  let difficulty := parse_rating rating_str
  if difficulty = 0 then 0
  else if 7 ≤ difficulty ∧ difficulty ≤ 10.75 then 2
  else if difficulty < 7 then 1
  else 0

/-- `categorize_grade(rating_str)` from `create_area_summary_scenic.py`. -/
def categorize_grade (rating_str : Option String) : String :=
  let difficulty := parse_rating rating_str
  if difficulty = 0 then "unknown"
  else if difficulty ≤ 6.75 then "5.0-5.6"
  else if 7 ≤ difficulty ∧ difficulty ≤ 8.75 then "5.7-5.8"
  else if 9 ≤ difficulty ∧ difficulty ≤ 10.75 then "5.9-5.10"
  else if 11 ≤ difficulty ∧ difficulty ≤ 11.75 then "5.11"
  else if 12 ≤ difficulty then "5.12+"
  else "unknown"

/-- `calculate_route_type_score(route_type_str)`; `none` models NaN, and
Python's `'Sport' in route_type` is substring (infix) containment on the
stripped string. -/
def calculate_route_type_score (route_type_str : Option String) : ℤ :=
  match route_type_str with
  | none => 0
  | some s =>
    let route_type := pyStrip s.data
    if List.IsInfix "Sport".data route_type then 1
    else if List.IsInfix "Multi-Pitch".data route_type then -1
    else 0

/-- C4 (amended): the difficulty score is 2 when the parsed grade lies in the
coded interval [7, 10.75] (5.7 to 5.10d); 1 when the parsed grade is strictly
between 0 and 7; and 0 when the parsed grade exceeds 10.75 or equals 0 — the
code treats every rating that parses to 0 (unparseable ratings, but also
ratings such as "5.0") as scoring 0 rather than as "below 5.7". -/
theorem calculate_difficulty_score_spec (r : Option String) :
    (7 ≤ parse_rating r ∧ parse_rating r ≤ 10.75 → calculate_difficulty_score r = 2) ∧
    (0 < parse_rating r ∧ parse_rating r < 7 → calculate_difficulty_score r = 1) ∧
    (10.75 < parse_rating r ∨ parse_rating r = 0 → calculate_difficulty_score r = 0) := by
  unfold calculate_difficulty_score
  simp only
  refine ⟨?_, ?_, ?_⟩
  · rintro ⟨h1, h2⟩
    rw [if_neg (by intro h; rw [h] at h1; norm_num at h1), if_pos ⟨h1, h2⟩]
  · rintro ⟨h1, h2⟩
    rw [if_neg (by intro h; rw [h] at h1; exact lt_irrefl 0 h1),
      if_neg (by intro hc; linarith [hc.1]), if_pos h2]
  · intro h
    rcases h with h | h
    · rw [if_neg (by intro hc; rw [hc] at h; norm_num at h),
        if_neg (by intro hc; linarith [hc.2]), if_neg (by intro hc; linarith)]
    · rw [if_pos h]

/-- Witness for C4 (amended) at the rating "5.9". -/
theorem calculate_difficulty_score_spec_witness :
    (7 ≤ parse_rating (some "5.9") ∧ parse_rating (some "5.9") ≤ 10.75) ∧
      calculate_difficulty_score (some "5.9") = 2 := by
  have h : parse_rating (some "5.9") = ((9 : ℕ) : ℚ) := rfl
  have hyp : 7 ≤ parse_rating (some "5.9") ∧ parse_rating (some "5.9") ≤ 10.75 := by
    rw [h]
    norm_num
  exact ⟨hyp, (calculate_difficulty_score_spec (some "5.9")).1 hyp⟩

/-- C4 counterexample: "5.0" parses (to the coded difficulty 0, which is below
the coded 5.7 threshold 7), yet its difficulty score is 0, not the 1 demanded
by the claim's "1 if the parsed grade is below 5.7" clause. -/
theorem difficulty_score_five_zero :
    parse_rating (some "5.0") = 0 ∧ (0 : ℚ) < 7 ∧
      calculate_difficulty_score (some "5.0") = 0 := by
  have h : parse_rating (some "5.0") = ((0 : ℕ) : ℚ) := rfl
  refine ⟨by rw [h]; norm_num, by norm_num, ?_⟩
  unfold calculate_difficulty_score
  simp only
  rw [if_pos (by rw [h]; norm_num)]

/-- C7: grade parsing and grade categorisation on the spec's concrete
examples ("5.10a", "5.7", "5.11c PG13", "", "V3", NaN). -/
theorem parse_rating_examples :
    parse_rating (some "5.10a") = 10 ∧ categorize_grade (some "5.10a") = "5.9-5.10" ∧
    parse_rating (some "5.7") = 7 ∧ categorize_grade (some "5.7") = "5.7-5.8" ∧
    parse_rating (some "5.11c PG13") = 11.5 ∧
      categorize_grade (some "5.11c PG13") = "5.11" ∧
    parse_rating (some "") = 0 ∧ categorize_grade (some "") = "unknown" ∧
    parse_rating (some "V3") = 0 ∧ categorize_grade (some "V3") = "unknown" ∧
    parse_rating none = 0 ∧ categorize_grade none = "unknown" := by
  have h10 : parse_rating (some "5.10a") = ((10 : ℕ) : ℚ) + 0 := rfl
  have h7 : parse_rating (some "5.7") = ((7 : ℕ) : ℚ) := rfl
  have h11 : parse_rating (some "5.11c PG13") = ((11 : ℕ) : ℚ) + 1 / 2 := rfl
  have he : parse_rating (some "") = 0 := rfl
  have hv : parse_rating (some "V3") = 0 := rfl
  have hn : parse_rating none = 0 := rfl
  refine ⟨by rw [h10]; norm_num, ?_, by rw [h7]; norm_num, ?_, by rw [h11]; norm_num, ?_,
    he, ?_, hv, ?_, hn, ?_⟩
  · unfold categorize_grade
    rw [h10]
    norm_num
  · unfold categorize_grade
    rw [h7]
    norm_num
  · unfold categorize_grade
    rw [h11]
    norm_num
  · unfold categorize_grade
    rw [he]
    norm_num
  · unfold categorize_grade
    rw [hv]
    norm_num
  · unfold categorize_grade
    rw [hn]
    norm_num

lemma infix_dropWhile_of_not (p : Char → Bool) (pat : List Char)
    (hpat : ∀ c ∈ pat, p c = false) (hne : pat ≠ []) :
    ∀ l : List Char, List.IsInfix pat l → List.IsInfix pat (l.dropWhile p) := by
  intro l
  induction l with
  | nil => intro h; simpa using h
  | cons a t ih =>
    intro h
    by_cases hp : p a = true
    · rw [List.dropWhile_cons, if_pos hp]
      apply ih
      obtain ⟨s, t', he⟩ := h
      cases s with
      | nil =>
        cases pat with
        | nil => exact absurd rfl hne
        | cons b pat' =>
          simp only [List.nil_append, List.cons_append, List.cons.injEq] at he
          have hb : p b = false := hpat b (List.mem_cons_self b pat')
          rw [he.1, hp] at hb
          exact absurd hb (by simp)
      | cons b s' =>
        simp only [List.cons_append, List.cons.injEq] at he
        exact ⟨s', t', he.2⟩
    · rw [List.dropWhile_cons, if_neg hp]
      exact h

lemma infix_pyStrip (pat l : List Char) (hpat : ∀ c ∈ pat, c.isWhitespace = false)
    (hne : pat ≠ []) (h : List.IsInfix pat l) : List.IsInfix pat (pyStrip l) := by
  unfold pyStrip
  have h1 := infix_dropWhile_of_not Char.isWhitespace pat hpat hne l h
  have h2 : List.IsInfix pat.reverse (l.dropWhile Char.isWhitespace).reverse :=
    List.reverse_infix.mpr h1
  have hpat' : ∀ c ∈ pat.reverse, c.isWhitespace = false := by
    intro c hc
    exact hpat c (List.mem_reverse.mp hc)
  have hne' : pat.reverse ≠ [] := by
    intro hc
    exact hne (by simpa using congrArg List.reverse hc)
  have h3 := infix_dropWhile_of_not Char.isWhitespace pat.reverse hpat' hne' _ h2
  have h4 : List.IsInfix pat.reverse
      (((l.dropWhile Char.isWhitespace).reverse.dropWhile Char.isWhitespace).reverse).reverse := by
    simpa using h3
  exact List.reverse_infix.mp h4

/-- C10: a route whose Route Type contains both "Sport" and "Multi-Pitch"
scores +1 (the Sport bonus), not -1, because the Sport check comes first. -/
theorem route_type_sport_precedence (s : String)
    (hsport : List.IsInfix "Sport".data s.data)
    (_hmp : List.IsInfix "Multi-Pitch".data s.data) :
    calculate_route_type_score (some s) = 1 := by
  unfold calculate_route_type_score
  simp only
  rw [if_pos (infix_pyStrip "Sport".data s.data (by decide) (by decide) hsport)]

/-- Witness for C10 at a concrete Route Type string containing both substrings. -/
theorem route_type_sport_precedence_witness :
    List.IsInfix "Sport".data "Sport, Multi-Pitch".data ∧
    List.IsInfix "Multi-Pitch".data "Sport, Multi-Pitch".data ∧
    calculate_route_type_score (some "Sport, Multi-Pitch") = 1 :=
  ⟨by decide, by decide,
   route_type_sport_precedence "Sport, Multi-Pitch" (by decide) (by decide)⟩

end RedRocks
